import Mathlib

/-!
Shallow embedding of the obesity-screening repository's core logic:

* `src/src/models/production_pipeline.py` — the feature encoder
  (`preprocess_input`) and the inference wrapper (`predict_from_input`).
* `src/src/pages/Prever.py` — the form's value mappings and the
  presentation-layer risk-tier thresholds.
* `src/src/shared/connection.py` — the append-only SQLite history store
  (`save_record`).

A pandas single-row DataFrame is modelled as an association list from
column names to cells; a cell is a rational number, a string, or the
missing value NaN (`Cell.missing`).  `Series.map` over a python dict
yields NaN on any key miss, which the model mirrors.  Fallible pandas
operations (`df[cols]` with absent columns, `.round` on strings,
`.astype(int)` on NaN) are modelled in the `Except` monad.
-/

/-- A cell of a single-row pandas DataFrame: numeric, string, or NaN. -/
inductive Cell : Type where
  | num (q : ℚ)
  | str (s : String)
  | missing
  deriving DecidableEq, Repr

/-- A single-row DataFrame: association list column-name ↦ cell. -/
abbrev Df : Type := List (String × Cell)

/-- Failures raised by the pandas operations the encoder performs. -/
inductive PipelineError : Type where
  /-- Raised by `df[_FINAL_FEATURES]` when columns are absent from the frame
  (pandas `KeyError` naming the missing columns). -/
  | keyError (missing : List String)
  /-- Raised by `.round` applied to a non-numeric column (pandas `TypeError`). -/
  | typeError (col : String)
  /-- Raised by `.astype(int)` applied to a NaN cell (pandas non-finite cast error). -/
  | intCastError (col : String)
  deriving DecidableEq, Repr

/-- First-match association-list lookup (python dict / DataFrame column access). -/
def alookup {β : Type} (k : String) : List (String × β) → Option β
  | [] => none
  | (k', v) :: rest => if k = k' then some v else alookup k rest

/-- Rational-keyed association-list lookup (python dict with int keys,
matched by numeric equality, as pandas `.map` does for float cells). -/
def qlookup (k : ℚ) : List (ℚ × ℚ) → Option ℚ
  | [] => none
  | (k', v) :: rest => if k = k' then some v else qlookup k rest

/-- Embeds `_COLUMN_RENAME` from `production_pipeline.py`. -/
def COLUMN_RENAME : List (String × String) :=
  [("Gender", "sexo"), ("Age", "idade"), ("Height", "altura"),
   ("Weight", "peso"), ("family_history", "hist_familiar_obes"),
   ("FAVC", "cons_altas_cal_freq"), ("FCVC", "cons_verduras"),
   ("NCP", "refeicoes_principais_dia"), ("CAEC", "lancha_entre_ref"),
   ("SMOKE", "fuma"), ("CH2O", "agua_dia"), ("SCC", "controle_calorias"),
   ("FAF", "ativ_fisica"), ("TUE", "uso_tecnologia"),
   ("CALC", "cons_alcool"), ("MTRANS", "transporte"),
   ("Obesity", "nivel_obesidade")]

/-- Embeds `_YES_NO_COLS`. -/
def YES_NO_COLS : List String :=
  ["hist_familiar_obes", "cons_altas_cal_freq", "fuma", "controle_calorias"]

/-- Embeds `_YES_NO_MAP`. -/
def YES_NO_MAP : List (String × ℚ) := [("yes", 1), ("no", 0)]

/-- Embeds `_SEXO_MAP`. -/
def SEXO_MAP : List (String × ℚ) := [("Female", 0), ("Male", 1)]

/-- Embeds `_INT_ROUND_COLS`. -/
def INT_ROUND_COLS : List String :=
  ["idade", "cons_verduras", "refeicoes_principais_dia", "ativ_fisica",
   "uso_tecnologia"]

/-- Embeds `_WATER_COL`. -/
def WATER_COL : String := "agua_dia"

/-- Embeds `_FLOAT_ROUND_COLS`. -/
def FLOAT_ROUND_COLS : List String := ["altura", "peso"]

/-- Embeds `_FREQ_MAP`. -/
def FREQ_MAP : List (String × ℚ) :=
  [("no", 0), ("Sometimes", 0), ("Frequently", 1), ("Always", 1)]

/-- Embeds `_ATIV_MAP`. -/
def ATIV_MAP : List (ℚ × ℚ) := [(0, 0), (1, 0), (2, 1), (3, 1), (4, 1)]

/-- Embeds `_TRANSP_MAP`. -/
def TRANSP_MAP : List (String × ℚ) :=
  [("Automobile", 1), ("Motorbike", 1), ("Public_Transportation", 1),
   ("Bike", 0), ("Walking", 0)]

/-- Embeds `_FINAL_FEATURES`: the selection order handed to the trained model. -/
def FINAL_FEATURES : List String :=
  ["hist_familiar_obes", "cons_altas_cal_freq", "cons_verduras",
   "refeicoes_principais_dia", "lancha_entre_ref_bin", "fuma",
   "agua_dia", "controle_calorias", "ativ_fisica_bin",
   "uso_tecnologia", "cons_alcool_bin", "trasporte_bin"]

/-- Models `Series.map` through a string-keyed python dict: a key miss — a string
outside the dict, a numeric cell, or NaN — yields NaN. -/
def mapVia (m : List (String × ℚ)) : Cell → Cell
  | .str s =>
    match alookup s m with
    | some q => .num q
    | none => .missing
  | _ => .missing

/-- Models `Series.map` through an int-keyed python dict: float cells match the
integer keys by numeric equality; anything else yields NaN. -/
def mapViaQ (m : List (ℚ × ℚ)) : Cell → Cell
  | .num q =>
    match qlookup q m with
    | some v => .num v
    | none => .missing
  | _ => .missing

/-- Models `df[col] = df[col].map(...)` under an `if col in df` guard: rewrite the
cell at `col` when the column is present, leave the frame unchanged otherwise. -/
def mapCol (col : String) (f : Cell → Cell) (df : Df) : Df :=
  df.map (fun kv => if kv.1 = col then (kv.1, f kv.2) else kv)

/-- The fallible variant of `mapCol`, for the rounding steps. -/
def mapColE (col : String) (f : Cell → Except PipelineError Cell) :
    Df → Except PipelineError Df
  | [] => .ok []
  | (k, v) :: rest =>
    if k = col then
      match f v with
      | .error e => .error e
      | .ok v' => (mapColE col f rest).map (fun r => (k, v') :: r)
    else
      (mapColE col f rest).map (fun r => (k, v) :: r)

/-- Round half to even (banker's rounding), the rule used by
`numpy`/`pandas` `.round`. -/
def roundHalfEven (q : ℚ) : ℤ :=
  let f : ℤ := ⌊q⌋
  let r : ℚ := q - f
  if r < 1/2 then f
  else if 1/2 < r then f + 1
  else if Even f then f else f + 1

/-- Models `df[col].round(0)` on one cell: numeric cells are rounded (dtype stays
float), NaN stays NaN, a string cell raises `TypeError`. -/
def roundIntCell (col : String) : Cell → Except PipelineError Cell
  | .num q => .ok (.num ((roundHalfEven q : ℤ) : ℚ))
  | .missing => .ok .missing
  | .str _ => .error (.typeError col)

/-- Models `df[_WATER_COL].round().astype(int)` on one cell: rounded then cast to
int; NaN cannot be cast and raises; a string cell raises `TypeError`. -/
def roundWaterCell (col : String) : Cell → Except PipelineError Cell
  | .num q => .ok (.num ((roundHalfEven q : ℤ) : ℚ))
  | .missing => .error (.intCastError col)
  | .str _ => .error (.typeError col)

/-- Models `df[col].round(2)` on one cell. -/
def roundTwoCell (col : String) : Cell → Except PipelineError Cell
  | .num q => .ok (.num (((roundHalfEven (q * 100) : ℤ) : ℚ) / 100))
  | .missing => .ok .missing
  | .str _ => .error (.typeError col)

/-- Embeds `_map_yes_no`. -/
def map_yes_no (df : Df) : Df :=
  YES_NO_COLS.foldl (fun d c => mapCol c (mapVia YES_NO_MAP) d) df

/-- Embeds `_map_sexo`. -/
def map_sexo (df : Df) : Df := mapCol "sexo" (mapVia SEXO_MAP) df

/-- Embeds `_round_numeric_columns`. -/
def round_numeric_columns (df : Df) : Except PipelineError Df := do
  let df ← INT_ROUND_COLS.foldlM (fun d c => mapColE c (roundIntCell c) d) df
  let df ← mapColE WATER_COL (roundWaterCell WATER_COL) df
  FLOAT_ROUND_COLS.foldlM (fun d c => mapColE c (roundTwoCell c) d) df

/-- Models `df[dst] = df[src].map(m)` under an `if src in df` guard: a new column
is appended to the frame when the source column is present. -/
def addBinCol (src dst : String) (f : Cell → Cell) (df : Df) : Df :=
  match alookup src df with
  | some c => df ++ [(dst, f c)]
  | none => df

/-- Embeds `_map_custom_bins`. -/
def map_custom_bins (df : Df) : Df :=
  let d1 := addBinCol "lancha_entre_ref" "lancha_entre_ref_bin" (mapVia FREQ_MAP) df
  let d2 := addBinCol "cons_alcool" "cons_alcool_bin" (mapVia FREQ_MAP) d1
  let d3 := addBinCol "ativ_fisica" "ativ_fisica_bin" (mapViaQ ATIV_MAP) d2
  addBinCol "transporte" "trasporte_bin" (mapVia TRANSP_MAP) d3

/-- Models `df[_FINAL_FEATURES]`: project the 12 training columns in order, or
raise a `KeyError` naming every absent column. -/
def selectFinal (df : Df) : Except PipelineError Df :=
  if FINAL_FEATURES.filter (fun c => (alookup c df).isNone) = [] then
    .ok (FINAL_FEATURES.map (fun c => (c, (alookup c df).getD .missing)))
  else .error (.keyError (FINAL_FEATURES.filter (fun c => (alookup c df).isNone)))

/-- Embeds `preprocess_input` from `production_pipeline.py`. -/
def preprocess_input (input : Df) : Except PipelineError Df := do
  let df := input.map (fun kv => ((alookup kv.1 COLUMN_RENAME).getD kv.1, kv.2))
  let df := map_yes_no df
  let df := map_sexo df
  let df ← round_numeric_columns df
  let df := map_custom_bins df
  selectFinal df

/-- A complete `RawObservation` as the end-to-end scenario of the spec lists
its fields: symbolic values in the fixed key order
`family_history, FAVC, FCVC, NCP, CAEC, SMOKE, CH2O, SCC, FAF, TUE, CALC, MTRANS`. -/
def mkInput (fh favc caec smoke scc calcv mtrans : String)
    (fcvc ncp ch2o faf tue : ℚ) : Df :=
  [("family_history", .str fh), ("FAVC", .str favc), ("FCVC", .num fcvc),
   ("NCP", .num ncp), ("CAEC", .str caec), ("SMOKE", .str smoke),
   ("CH2O", .num ch2o), ("SCC", .str scc), ("FAF", .num faf),
   ("TUE", .num tue), ("CALC", .str calcv), ("MTRANS", .str mtrans)]

/-- An otherwise-complete `RawObservation` from which `MTRANS` is omitted. -/
def mkInputNoMTRANS (fh favc caec smoke scc calcv : String)
    (fcvc ncp ch2o faf tue : ℚ) : Df :=
  [("family_history", .str fh), ("FAVC", .str favc), ("FCVC", .num fcvc),
   ("NCP", .num ncp), ("CAEC", .str caec), ("SMOKE", .str smoke),
   ("CH2O", .num ch2o), ("SCC", .str scc), ("FAF", .num faf),
   ("TUE", .num tue), ("CALC", .str calcv)]

/-- Embeds `CAEC_MAP` from the form in `Prever.py`. -/
def CAEC_FORM_MAP : List (String × String) :=
  [("Nunca", "no"), ("Às vezes", "Sometimes"), ("Frequentemente", "Frequently"),
   ("Sempre", "Always")]

/-- Embeds `CALC_MAP` from the form in `Prever.py`. -/
def CALC_FORM_MAP : List (String × String) :=
  [("Nunca", "never"), ("Às vezes", "sometimes"),
   ("Frequentemente", "frequently"), ("Sempre", "always"), ("no", "never")]

/-- Embeds `MTRANS_MAP` from the form in `Prever.py`. -/
def MTRANS_FORM_MAP : List (String × String) :=
  [("Automóvel", "Automobile"), ("Moto", "Motorbike"),
   ("Transporte Público", "Public_Transportation"), ("Bicicleta", "Bike"),
   ("A pé", "Walking")]

/-- Embeds `CAEC = CAEC_MAP.get(CAEC_display, 'no')`. -/
def caecFromDisplay (d : String) : String := (alookup d CAEC_FORM_MAP).getD "no"

/-- Embeds `CALC = CALC_MAP.get(CALC_display, 'never')`. -/
def calcFromDisplay (d : String) : String := (alookup d CALC_FORM_MAP).getD "never"

/-- Embeds `MTRANS = MTRANS_MAP.get(MTRANS_display, 'Automobile')`. -/
def mtransFromDisplay (d : String) : String :=
  (alookup d MTRANS_FORM_MAP).getD "Automobile"

/-- Embeds `'yes' if display == 'Sim' else 'no'` for the form's radio fields. -/
def yesNoFromDisplay (d : String) : String := if d = "Sim" then "yes" else "no"

/-- Models the `inputs` dict built on submission in `render_predict`
(`Prever.py`): the widget display choices converted to model codes, keyed in
the source's insertion order, `Nome` first. -/
def form_inputs (nome fhD favcD caecD smokeD sccD calcD mtransD : String)
    (fcvc ncp ch2o faf tue : ℚ) : Df :=
  [("Nome", .str nome),
   ("family_history", .str (yesNoFromDisplay fhD)),
   ("FAVC", .str (yesNoFromDisplay favcD)),
   ("FCVC", .num fcvc), ("NCP", .num ncp),
   ("CAEC", .str (caecFromDisplay caecD)),
   ("SMOKE", .str (yesNoFromDisplay smokeD)),
   ("CH2O", .num ch2o),
   ("SCC", .str (yesNoFromDisplay sccD)),
   ("FAF", .num faf), ("TUE", .num tue),
   ("CALC", .str (calcFromDisplay calcD)),
   ("MTRANS", .str (mtransFromDisplay mtransD))]

/-- A classifier as `predict_from_input` duck-types it: a mandatory
`predict` (first row's label) and an optional `predict_proba`
(first row's two-class probability pair). -/
structure Modelo : Type where
  predict : Df → ℤ
  predict_proba : Option (Df → ℚ × ℚ)

/-- Positive-risk message from `predict_from_input`. -/
def MSG_POS : String := "⚠️ Há indícios de que pode ter obesidade."

/-- Negative message from `predict_from_input`. -/
def MSG_NEG : String := "✅ Baixa probabilidade de obesidade."

/-- Models python's `f-string` `.2%` percentage formatting: the value scaled
by 100, rounded half-to-even to two decimals, with a percent sign. -/
def formatPct (p : ℚ) : String :=
  let c : ℤ := roundHalfEven (p * 10000)
  toString (c / 100) ++ "." ++ (if c % 100 < 10 then "0" else "") ++
    toString (c % 100) ++ "%"

/-- Models `f"Probabilidade estimada: {prob:.2%}"`. -/
def prob_msg (p : ℚ) : String := "Probabilidade estimada: " ++ formatPct p

/-- The wrapper's friendly result dict: `mensagem` always present,
`probabilidade` only when the model exposes `predict_proba`. -/
structure PredictionResult : Type where
  mensagem : String
  probabilidade : Option String
  deriving DecidableEq, Repr

/-- Embeds `predict_from_input` from `production_pipeline.py`. -/
def predict_from_input (m : Modelo) (input : Df) :
    Except PipelineError PredictionResult := do
  let df ← preprocess_input input
  let pred := m.predict df
  let prob : Option ℚ := m.predict_proba.map (fun f => (f df).2)
  let msg := if pred = 1 then MSG_POS else MSG_NEG
  match prob with
  | some p => return ⟨msg, some (prob_msg p)⟩
  | none => return ⟨msg, none⟩

/-- Embeds the risk-tier thresholding of `render_predict` (`Prever.py`,
lines 310-318): `prob >= 60 → Alto`, `elif prob >= 30 → Moderado`,
`else Baixo`. -/
def risco (prob : ℚ) : String :=
  if prob ≥ 60 then "Alto" else if prob ≥ 30 then "Moderado" else "Baixo"

/-- A row of the SQLite `records` table of `connection.py`. -/
structure DbRecord : Type where
  id : ℕ
  timestamp : ℚ
  user_type : String
  user_name : String
  inputs : String
  mensagem : String
  probabilidade : ℚ
  deriving DecidableEq, Repr

/-- The history store: the `records` table plus the `AUTOINCREMENT`
sequence counter (SQLite hands out `max-ever-used + 1`, starting at 1). -/
structure DbState : Type where
  nextId : ℕ
  records : List DbRecord
  deriving DecidableEq, Repr

/-- Models `init_db`: an empty `records` table, identities starting at 1. -/
def initDb : DbState := ⟨1, []⟩

/-- One call to `save_record`: the clock reading taken by
`datetime.now(timezone.utc)` plus the five column values inserted. -/
structure SaveCall : Type where
  timestamp : ℚ
  user_type : String
  user_name : String
  inputs : String
  mensagem : String
  probabilidade : ℚ

/-- The row a `save_record` call inserts, keyed by the sequence counter. -/
def mkRecord (n : ℕ) (c : SaveCall) : DbRecord :=
  ⟨n, c.timestamp, c.user_type, c.user_name, c.inputs, c.mensagem, c.probabilidade⟩

/-- Embeds `save_record` from `shared/connection.py`: one `INSERT` of one row
with the next `AUTOINCREMENT` identity; no update, no delete. -/
def save_record (c : SaveCall) (s : DbState) : DbState :=
  ⟨s.nextId + 1, s.records ++ [mkRecord s.nextId c]⟩

/-- Runs a sequence of `save_record` calls against a store state. -/
def runSaves (cs : List SaveCall) (s : DbState) : DbState :=
  cs.foldl (fun st c => save_record c st) s

/-- The rows a run of saves appends, with identities counted from `n`. -/
def buildRecords (n : ℕ) : List SaveCall → List DbRecord
  | [] => []
  | c :: cs => mkRecord n c :: buildRecords (n + 1) cs

/-- Concrete end-to-end scenario input of the spec (and claim C1). -/
def sampleInput : Df :=
  mkInput "yes" "no" "Sometimes" "no" "no" "Sometimes" "Walking" 3 3 2 1 1

/-- The feature frame the sample input encodes to. -/
def sampleOutput : Df :=
  [("hist_familiar_obes", .num 1), ("cons_altas_cal_freq", .num 0),
   ("cons_verduras", .num 3), ("refeicoes_principais_dia", .num 3),
   ("lancha_entre_ref_bin", .num 0), ("fuma", .num 0),
   ("agua_dia", .num 2), ("controle_calorias", .num 0),
   ("ativ_fisica_bin", .num 0), ("uso_tecnologia", .num 1),
   ("cons_alcool_bin", .num 0), ("trasporte_bin", .num 0)]

/-- A model with no probability capability, used to instantiate theorems. -/
def wModel : Modelo := ⟨fun _ => 1, none⟩

/-- Two concrete history saves with non-decreasing timestamps. -/
def wCalls : List SaveCall :=
  [⟨10, "anon", "anon", "inputs-a", "msg-a", 50⟩,
   ⟨20, "medico", "dra", "inputs-b", "msg-b", 75⟩]

theorem roundHalfEven_intCast (z : ℤ) : roundHalfEven ((z : ℤ) : ℚ) = z := by
  simp [roundHalfEven]

theorem roundHalfEven_zero : roundHalfEven (0 : ℚ) = 0 := by
  have h := roundHalfEven_intCast 0
  push_cast at h
  exact h

theorem roundHalfEven_one : roundHalfEven (1 : ℚ) = 1 := by
  have h := roundHalfEven_intCast 1
  push_cast at h
  exact h

theorem roundHalfEven_two : roundHalfEven (2 : ℚ) = 2 := by
  have h := roundHalfEven_intCast 2
  push_cast at h
  exact h

theorem roundHalfEven_three : roundHalfEven (3 : ℚ) = 3 := by
  have h := roundHalfEven_intCast 3
  push_cast at h
  exact h

set_option maxHeartbeats 2000000 in
theorem preprocess_eval (fh favc caec smoke scc calcv mtrans : String)
    (fcvc ncp ch2o faf tue : ℚ) :
    preprocess_input (mkInput fh favc caec smoke scc calcv mtrans fcvc ncp ch2o faf tue) =
    .ok [("hist_familiar_obes", mapVia YES_NO_MAP (.str fh)),
         ("cons_altas_cal_freq", mapVia YES_NO_MAP (.str favc)),
         ("cons_verduras", .num ((roundHalfEven fcvc : ℤ) : ℚ)),
         ("refeicoes_principais_dia", .num ((roundHalfEven ncp : ℤ) : ℚ)),
         ("lancha_entre_ref_bin", mapVia FREQ_MAP (.str caec)),
         ("fuma", mapVia YES_NO_MAP (.str smoke)),
         ("agua_dia", .num ((roundHalfEven ch2o : ℤ) : ℚ)),
         ("controle_calorias", mapVia YES_NO_MAP (.str scc)),
         ("ativ_fisica_bin", mapViaQ ATIV_MAP (.num ((roundHalfEven faf : ℤ) : ℚ))),
         ("uso_tecnologia", .num ((roundHalfEven tue : ℤ) : ℚ)),
         ("cons_alcool_bin", mapVia FREQ_MAP (.str calcv)),
         ("trasporte_bin", mapVia TRANSP_MAP (.str mtrans))] := by
  simp only [mkInput, preprocess_input, COLUMN_RENAME, alookup, map_yes_no,
    YES_NO_COLS, List.foldl, mapCol, List.map, map_sexo, round_numeric_columns,
    INT_ROUND_COLS, WATER_COL, FLOAT_ROUND_COLS, List.foldlM, mapColE,
    roundIntCell, roundWaterCell, roundTwoCell, Except.map, bind, Except.bind,
    map_custom_bins, addBinCol, selectFinal, FINAL_FEATURES, List.filter,
    Option.isNone, Option.getD, List.append, pure, Except.pure,
    String.reduceEq, reduceIte, List.cons_append, List.nil_append]

set_option maxHeartbeats 2000000 in
theorem preprocess_eval_noMTRANS (fh favc caec smoke scc calcv : String)
    (fcvc ncp ch2o faf tue : ℚ) :
    preprocess_input (mkInputNoMTRANS fh favc caec smoke scc calcv fcvc ncp ch2o faf tue) =
    .error (.keyError ["trasporte_bin"]) := by
  simp only [mkInputNoMTRANS, preprocess_input, COLUMN_RENAME, alookup,
    map_yes_no, YES_NO_COLS, List.foldl, mapCol, List.map, map_sexo,
    round_numeric_columns, INT_ROUND_COLS, WATER_COL, FLOAT_ROUND_COLS,
    List.foldlM, mapColE, roundIntCell, roundWaterCell, roundTwoCell,
    Except.map, bind, Except.bind, map_custom_bins, addBinCol, selectFinal,
    FINAL_FEATURES, List.filter, Option.isNone, Option.getD, List.append,
    pure, Except.pure, String.reduceEq, reduceIte, List.cons_append,
    List.nil_append]
  simp

set_option maxHeartbeats 4000000 in
theorem preprocess_eval_form (nome fhD favcD caecD smokeD sccD calcD mtransD : String)
    (fcvc ncp ch2o faf tue : ℚ) :
    preprocess_input (form_inputs nome fhD favcD caecD smokeD sccD calcD mtransD fcvc ncp ch2o faf tue) =
    .ok [("hist_familiar_obes", mapVia YES_NO_MAP (.str (yesNoFromDisplay fhD))),
         ("cons_altas_cal_freq", mapVia YES_NO_MAP (.str (yesNoFromDisplay favcD))),
         ("cons_verduras", .num ((roundHalfEven fcvc : ℤ) : ℚ)),
         ("refeicoes_principais_dia", .num ((roundHalfEven ncp : ℤ) : ℚ)),
         ("lancha_entre_ref_bin", mapVia FREQ_MAP (.str (caecFromDisplay caecD))),
         ("fuma", mapVia YES_NO_MAP (.str (yesNoFromDisplay smokeD))),
         ("agua_dia", .num ((roundHalfEven ch2o : ℤ) : ℚ)),
         ("controle_calorias", mapVia YES_NO_MAP (.str (yesNoFromDisplay sccD))),
         ("ativ_fisica_bin", mapViaQ ATIV_MAP (.num ((roundHalfEven faf : ℤ) : ℚ))),
         ("uso_tecnologia", .num ((roundHalfEven tue : ℤ) : ℚ)),
         ("cons_alcool_bin", mapVia FREQ_MAP (.str (calcFromDisplay calcD))),
         ("trasporte_bin", mapVia TRANSP_MAP (.str (mtransFromDisplay mtransD)))] := by
  simp only [form_inputs, preprocess_input, COLUMN_RENAME, alookup,
    map_yes_no, YES_NO_COLS, List.foldl, mapCol, List.map, map_sexo,
    round_numeric_columns, INT_ROUND_COLS, WATER_COL, FLOAT_ROUND_COLS,
    List.foldlM, mapColE, roundIntCell, roundWaterCell, roundTwoCell,
    Except.map, bind, Except.bind, map_custom_bins, addBinCol, selectFinal,
    FINAL_FEATURES, List.filter, Option.isNone, Option.getD, List.append,
    pure, Except.pure, String.reduceEq, reduceIte, List.cons_append,
    List.nil_append]

theorem sample_eval : preprocess_input sampleInput = .ok sampleOutput := by
  unfold sampleInput sampleOutput
  rw [preprocess_eval]
  simp only [mapVia, mapViaQ, alookup, qlookup, YES_NO_MAP, FREQ_MAP,
    ATIV_MAP, TRANSP_MAP, roundHalfEven_one, roundHalfEven_two,
    roundHalfEven_three, String.reduceEq, reduceIte]
  norm_num

theorem except_bind_ok {α β ε : Type} (x : Except ε α) (f : α → Except ε β)
    (b : β) (h : x >>= f = .ok b) : ∃ a, x = .ok a ∧ f a = .ok b := by
  cases x with
  | error e => simp [bind, Except.bind] at h
  | ok a => exact ⟨a, rfl, by simpa [bind, Except.bind] using h⟩

theorem selectFinal_ok_names (d v : Df) (h : selectFinal d = .ok v) :
    v.map Prod.fst = FINAL_FEATURES := by
  unfold selectFinal at h
  split at h
  · simp only [Except.ok.injEq] at h
    subst h
    rw [List.map_map]
    have hcomp : (Prod.fst ∘ fun c => (c, (alookup c d).getD Cell.missing)) = id := rfl
    rw [hcomp, List.map_id]
  · exact absurd h (by simp)

theorem predict_eval (m : Modelo) (r v : Df) (h : preprocess_input r = .ok v) :
    predict_from_input m r =
      .ok ⟨if m.predict v = 1 then MSG_POS else MSG_NEG,
           m.predict_proba.map (fun f => prob_msg (f v).2)⟩ := by
  cases hp : m.predict_proba <;>
    simp [predict_from_input, h, hp, bind, Except.bind, Option.map, pure,
      Except.pure]

/-- C1: on the end-to-end scenario input
`{family_history: yes, FAVC: no, FCVC: 3, NCP: 3, CAEC: Sometimes,
SMOKE: no, CH2O: 2, SCC: no, FAF: 1, TUE: 1, CALC: Sometimes,
MTRANS: Walking}`, the encoder `preprocess_input` returns the feature
vector exactly equal to `[1,0,3,3,0,0,2,0,0,1,0,0]`, in that order. -/
theorem claim_c1 :
    preprocess_input
        (mkInput "yes" "no" "Sometimes" "no" "no" "Sometimes" "Walking" 3 3 2 1 1) =
      .ok [("hist_familiar_obes", .num 1), ("cons_altas_cal_freq", .num 0),
           ("cons_verduras", .num 3), ("refeicoes_principais_dia", .num 3),
           ("lancha_entre_ref_bin", .num 0), ("fuma", .num 0),
           ("agua_dia", .num 2), ("controle_calorias", .num 0),
           ("ativ_fisica_bin", .num 0), ("uso_tecnologia", .num 1),
           ("cons_alcool_bin", .num 0), ("trasporte_bin", .num 0)] := by
  rw [preprocess_eval]
  simp only [mapVia, mapViaQ, alookup, qlookup, YES_NO_MAP, FREQ_MAP,
    ATIV_MAP, TRANSP_MAP, roundHalfEven_one, roundHalfEven_two,
    roundHalfEven_three, String.reduceEq, reduceIte]
  norm_num

/-- C2: whenever `preprocess_input` succeeds, the returned frame has
exactly the 12 columns of `_FINAL_FEATURES` in their fixed order; in
particular the 5th entry is `lancha_entre_ref_bin` and the 9th is
`ativ_fisica_bin`. -/
theorem claim_c2 (r v : Df) (h : preprocess_input r = .ok v) :
    v.map Prod.fst = FINAL_FEATURES ∧ v.length = 12 ∧
    (v.map Prod.fst)[4]? = some "lancha_entre_ref_bin" ∧
    (v.map Prod.fst)[8]? = some "ativ_fisica_bin" := by
  unfold preprocess_input at h
  obtain ⟨d, _, hsel⟩ := except_bind_ok _ _ _ h
  have hnames := selectFinal_ok_names _ _ hsel
  refine ⟨hnames, ?_, ?_, ?_⟩
  · have hlen := congrArg List.length hnames
    simpa using hlen
  · rw [hnames]; rfl
  · rw [hnames]; rfl

/-- C2 witness: the order invariant instantiated at the concrete
end-to-end scenario. -/
theorem claim_c2_witness :
    sampleOutput.map Prod.fst = FINAL_FEATURES ∧ sampleOutput.length = 12 ∧
    (sampleOutput.map Prod.fst)[4]? = some "lancha_entre_ref_bin" ∧
    (sampleOutput.map Prod.fst)[8]? = some "ativ_fisica_bin" :=
  claim_c2 sampleInput sampleOutput sample_eval

/-- C3 counterexample: on an input whose `family_history` is `"maybe"`
(outside the `{yes, no}` vocabulary) the pipeline does NOT fail: it
returns a feature frame whose `hist_familiar_obes` entry is silently the
missing value. -/
theorem claim_c3_counterexample :
    preprocess_input
        (mkInput "maybe" "no" "Sometimes" "no" "no" "Sometimes" "Walking" 3 3 2 1 1) =
      .ok [("hist_familiar_obes", .missing), ("cons_altas_cal_freq", .num 0),
           ("cons_verduras", .num 3), ("refeicoes_principais_dia", .num 3),
           ("lancha_entre_ref_bin", .num 0), ("fuma", .num 0),
           ("agua_dia", .num 2), ("controle_calorias", .num 0),
           ("ativ_fisica_bin", .num 0), ("uso_tecnologia", .num 1),
           ("cons_alcool_bin", .num 0), ("trasporte_bin", .num 0)] := by
  rw [preprocess_eval]
  simp only [mapVia, mapViaQ, alookup, qlookup, YES_NO_MAP, FREQ_MAP,
    ATIV_MAP, TRANSP_MAP, roundHalfEven_one, roundHalfEven_two,
    roundHalfEven_three, String.reduceEq, reduceIte]
  norm_num

/-- C3 amended: an out-of-vocabulary categorical value (here any
`family_history` outside `{yes, no}`) does not make the encoder raise:
`preprocess_input` succeeds and the corresponding feature is silently a
missing value (NaN). -/
theorem claim_c3_amended (s favc caec smoke scc calcv mtrans : String)
    (fcvc ncp ch2o faf tue : ℚ) (h1 : s ≠ "yes") (h2 : s ≠ "no") :
    ∃ v, preprocess_input
        (mkInput s favc caec smoke scc calcv mtrans fcvc ncp ch2o faf tue) =
        .ok v ∧
      alookup "hist_familiar_obes" v = some .missing := by
  refine ⟨_, preprocess_eval s favc caec smoke scc calcv mtrans fcvc ncp ch2o faf tue, ?_⟩
  simp [alookup, mapVia, YES_NO_MAP, h1, h2]

/-- C3 amended witness: instantiated at `family_history = "maybe"`. -/
theorem claim_c3_witness :
    ∃ v, preprocess_input
        (mkInput "maybe" "no" "Sometimes" "no" "no" "Sometimes" "Walking" 3 3 2 1 1) =
        .ok v ∧
      alookup "hist_familiar_obes" v = some .missing :=
  claim_c3_amended "maybe" "no" "Sometimes" "no" "no" "Sometimes" "Walking"
    3 3 2 1 1 (by decide) (by decide)

/-- C4: the encoder's derived bins are exactly the spec's tables:
`_map_custom_bins` appends the four bin columns computed by the frequency
map (case-sensitive; out-of-vocabulary strings yield a missing value),
the activity map `{0,1 ↦ 0; 2,3,4 ↦ 1}`, and the transport map (with the
misspelt `trasporte_bin` column name preserved). -/
theorem claim_c4 :
    (∀ c1 c2 c3 c4 : Cell,
      map_custom_bins [("lancha_entre_ref", c1), ("cons_alcool", c2),
        ("ativ_fisica", c3), ("transporte", c4)] =
      [("lancha_entre_ref", c1), ("cons_alcool", c2), ("ativ_fisica", c3),
       ("transporte", c4), ("lancha_entre_ref_bin", mapVia FREQ_MAP c1),
       ("cons_alcool_bin", mapVia FREQ_MAP c2),
       ("ativ_fisica_bin", mapViaQ ATIV_MAP c3),
       ("trasporte_bin", mapVia TRANSP_MAP c4)]) ∧
    mapVia FREQ_MAP (.str "no") = .num 0 ∧
    mapVia FREQ_MAP (.str "Sometimes") = .num 0 ∧
    mapVia FREQ_MAP (.str "Frequently") = .num 1 ∧
    mapVia FREQ_MAP (.str "Always") = .num 1 ∧
    (∀ s : String, s ∉ (["no", "Sometimes", "Frequently", "Always"] : List String) →
      mapVia FREQ_MAP (.str s) = .missing) ∧
    mapViaQ ATIV_MAP (.num 0) = .num 0 ∧ mapViaQ ATIV_MAP (.num 1) = .num 0 ∧
    mapViaQ ATIV_MAP (.num 2) = .num 1 ∧ mapViaQ ATIV_MAP (.num 3) = .num 1 ∧
    mapViaQ ATIV_MAP (.num 4) = .num 1 ∧
    mapVia TRANSP_MAP (.str "Automobile") = .num 1 ∧
    mapVia TRANSP_MAP (.str "Motorbike") = .num 1 ∧
    mapVia TRANSP_MAP (.str "Public_Transportation") = .num 1 ∧
    mapVia TRANSP_MAP (.str "Bike") = .num 0 ∧
    mapVia TRANSP_MAP (.str "Walking") = .num 0 := by
  refine ⟨fun c1 c2 c3 c4 => rfl, rfl, rfl, rfl, rfl, ?_, ?_, ?_, ?_, ?_, ?_,
    rfl, rfl, rfl, rfl, rfl⟩
  · intro s hs
    simp only [List.mem_cons, List.not_mem_nil, or_false, not_or] at hs
    obtain ⟨h1, h2, h3, h4⟩ := hs
    simp [mapVia, alookup, FREQ_MAP, h1, h2, h3, h4]
  all_goals norm_num [mapViaQ, qlookup, ATIV_MAP]

/-- C4 witness: the case-sensitivity clause instantiated at the lowercase
string `"sometimes"`, which is not in the frequency vocabulary. -/
theorem claim_c4_witness :
    ("sometimes" : String) ∉ (["no", "Sometimes", "Frequently", "Always"] : List String) ∧
    mapVia FREQ_MAP (.str "sometimes") = .missing :=
  ⟨by decide, claim_c4.2.2.2.2.2.1 "sometimes" (by decide)⟩

/-- C5 counterexample: omitting `MTRANS` from an otherwise-complete input
does raise a missing-feature failure, but the failure names the derived
column `trasporte_bin`, not `MTRANS` nor its internal name `transporte`. -/
theorem claim_c5_counterexample :
    preprocess_input
        (mkInputNoMTRANS "yes" "no" "Sometimes" "no" "no" "Sometimes" 3 3 2 1 1) =
      .error (.keyError ["trasporte_bin"]) ∧
    ("trasporte_bin" : String) ≠ "MTRANS" ∧
    ("trasporte_bin" : String) ≠ "transporte" :=
  ⟨preprocess_eval_noMTRANS "yes" "no" "Sometimes" "no" "no" "Sometimes" 3 3 2 1 1,
   by decide, by decide⟩

/-- C5 amended: for every otherwise-complete input lacking `MTRANS`,
`preprocess_input` raises the missing-feature failure (pandas `KeyError`)
naming exactly the derived feature column `trasporte_bin`. -/
theorem claim_c5_amended (fh favc caec smoke scc calcv : String)
    (fcvc ncp ch2o faf tue : ℚ) :
    preprocess_input
        (mkInputNoMTRANS fh favc caec smoke scc calcv fcvc ncp ch2o faf tue) =
      .error (.keyError ["trasporte_bin"]) :=
  preprocess_eval_noMTRANS fh favc caec smoke scc calcv fcvc ncp ch2o faf tue

/-- C6: the presentation layer's tiers are `Baixo` exactly below 30,
`Moderado` exactly on `[30, 60)`, `Alto` exactly from 60 on; in
particular 29.999 is `Baixo`, 30 is `Moderado`, 59.999 is `Moderado`
and 60 is `Alto`. -/
theorem claim_c6 :
    (∀ p : ℚ, (risco p = "Baixo" ↔ p < 30) ∧
      (risco p = "Moderado" ↔ 30 ≤ p ∧ p < 60) ∧
      (risco p = "Alto" ↔ 60 ≤ p)) ∧
    risco 29.999 = "Baixo" ∧ risco 30 = "Moderado" ∧
    risco 59.999 = "Moderado" ∧ risco 60 = "Alto" := by
  refine ⟨fun p => ?_, by norm_num [risco], by norm_num [risco],
    by norm_num [risco], by norm_num [risco]⟩
  unfold risco
  split_ifs with h1 h2
  · refine ⟨?_, ?_, ?_⟩
    · simp only [String.reduceEq, false_iff, not_lt]
      linarith
    · simp only [String.reduceEq, false_iff]
      intro hA
      linarith [hA.2]
    · simp only [String.reduceEq, true_iff]
      exact h1
  · refine ⟨?_, ?_, ?_⟩
    · simp only [String.reduceEq, false_iff, not_lt]
      exact h2
    · simp only [String.reduceEq, true_iff]
      exact ⟨h2, not_le.mp h1⟩
    · simp only [String.reduceEq, false_iff]
      exact h1
  · refine ⟨?_, ?_, ?_⟩
    · simp only [String.reduceEq, true_iff]
      exact not_le.mp h2
    · simp only [String.reduceEq, false_iff]
      intro hA
      exact h2 hA.1
    · simp only [String.reduceEq, false_iff]
      exact h1

/-- C7: whenever the encoder succeeds, `predict_from_input` returns the
positive-risk message exactly when the classifier's `predict` is 1 and
the negative one otherwise; the probability field is the second element
of `predict_proba`'s pair formatted as a percentage string when that
capability exists, and is simply absent — with no error raised — when it
does not. -/
theorem claim_c7 (m : Modelo) (r v : Df) (h : preprocess_input r = .ok v) :
    predict_from_input m r =
      .ok ⟨if m.predict v = 1 then MSG_POS else MSG_NEG,
           m.predict_proba.map (fun f => prob_msg (f v).2)⟩ :=
  predict_eval m r v h

/-- C7 witness: a probability-less model on the concrete scenario input. -/
theorem claim_c7_witness :
    predict_from_input wModel sampleInput =
      .ok ⟨if wModel.predict sampleOutput = 1 then MSG_POS else MSG_NEG,
           wModel.predict_proba.map (fun f => prob_msg (f sampleOutput).2)⟩ :=
  claim_c7 wModel sampleInput sampleOutput sample_eval

theorem roundHalfEven_dist (q : ℚ) :
    |q - ((roundHalfEven q : ℤ) : ℚ)| ≤ 1/2 := by
  have h1 : ((⌊q⌋ : ℤ) : ℚ) ≤ q := Int.floor_le q
  have h2 : q < ((⌊q⌋ : ℤ) : ℚ) + 1 := Int.lt_floor_add_one q
  simp only [roundHalfEven]
  split_ifs with ha hb hc <;>
    rw [abs_le] <;> constructor <;> push_cast <;> linarith

theorem roundHalfEven_even_of_tie (q : ℚ)
    (h : |q - ((roundHalfEven q : ℤ) : ℚ)| = 1/2) : Even (roundHalfEven q) := by
  have h1 : ((⌊q⌋ : ℤ) : ℚ) ≤ q := Int.floor_le q
  have h2 : q < ((⌊q⌋ : ℤ) : ℚ) + 1 := Int.lt_floor_add_one q
  simp only [roundHalfEven] at h ⊢
  split_ifs at h ⊢ with ha hb hc
  · rw [abs_of_nonneg (by linarith)] at h
    linarith
  · rw [abs_of_neg (by push_cast; linarith)] at h
    push_cast at h
    linarith
  · exact hc
  · exact Int.even_add_one.mpr hc

/-- C8: the encoder rounds the integer-scale columns (`idade`,
`cons_verduras` = FCVC, `refeicoes_principais_dia` = NCP, `ativ_fisica` =
FAF, `uso_tecnologia` = TUE) and the water column `agua_dia` = CH2O (then
cast to integer) to the nearest whole number, resolving ties half to even. -/
theorem claim_c8 :
    INT_ROUND_COLS = ["idade", "cons_verduras", "refeicoes_principais_dia",
      "ativ_fisica", "uso_tecnologia"] ∧
    WATER_COL = "agua_dia" ∧
    (∀ (col : String) (q : ℚ),
      roundIntCell col (.num q) = .ok (.num ((roundHalfEven q : ℤ) : ℚ))) ∧
    (∀ (col : String) (q : ℚ),
      roundWaterCell col (.num q) = .ok (.num ((roundHalfEven q : ℤ) : ℚ))) ∧
    (∀ q : ℚ, |q - ((roundHalfEven q : ℤ) : ℚ)| ≤ 1/2) ∧
    (∀ q : ℚ, |q - ((roundHalfEven q : ℤ) : ℚ)| = 1/2 → Even (roundHalfEven q)) :=
  ⟨rfl, rfl, fun _ _ => rfl, fun _ _ => rfl, roundHalfEven_dist,
   roundHalfEven_even_of_tie⟩

theorem roundHalfEven_half : roundHalfEven (1/2 : ℚ) = 0 := by
  have hf : ⌊(1/2 : ℚ)⌋ = 0 := by norm_num
  simp only [roundHalfEven, hf]
  norm_num

/-- C8 witness: the tie at one half, which rounds down to the even 0. -/
theorem claim_c8_witness :
    |(1/2 : ℚ) - ((roundHalfEven (1/2 : ℚ) : ℤ) : ℚ)| = 1/2 ∧
    Even (roundHalfEven (1/2 : ℚ)) := by
  have habs : |(1/2 : ℚ) - ((roundHalfEven (1/2 : ℚ) : ℤ) : ℚ)| = 1/2 := by
    rw [roundHalfEven_half]
    norm_num
  exact ⟨habs, claim_c8.2.2.2.2.2 (1/2 : ℚ) habs⟩

theorem runSaves_eq (cs : List SaveCall) (s : DbState) :
    runSaves cs s = ⟨s.nextId + cs.length, s.records ++ buildRecords s.nextId cs⟩ := by
  induction cs generalizing s with
  | nil => simp [runSaves, buildRecords]
  | cons c cs ih =>
    have h1 : runSaves (c :: cs) s = runSaves cs (save_record c s) := rfl
    rw [h1, ih]
    simp [save_record, buildRecords, List.append_assoc]
    omega

theorem buildRecords_length (n : ℕ) (cs : List SaveCall) :
    (buildRecords n cs).length = cs.length := by
  induction cs generalizing n with
  | nil => rfl
  | cons c cs ih => simp [buildRecords, ih]

theorem buildRecords_map_ts (n : ℕ) (cs : List SaveCall) :
    (buildRecords n cs).map DbRecord.timestamp = cs.map SaveCall.timestamp := by
  induction cs generalizing n with
  | nil => rfl
  | cons c cs ih => simp [buildRecords, mkRecord, ih]

theorem buildRecords_id_ge (n : ℕ) (cs : List SaveCall) :
    ∀ r ∈ buildRecords n cs, n ≤ r.id := by
  induction cs generalizing n with
  | nil =>
    intro r hr
    simp [buildRecords] at hr
  | cons c cs ih =>
    intro r hr
    simp only [buildRecords, List.mem_cons] at hr
    rcases hr with rfl | hr
    · simp [mkRecord]
    · exact le_trans (Nat.le_succ n) (ih (n + 1) r hr)

theorem buildRecords_pairwise_id (n : ℕ) (cs : List SaveCall) :
    List.Pairwise (· < ·) ((buildRecords n cs).map DbRecord.id) := by
  induction cs generalizing n with
  | nil => simp [buildRecords]
  | cons c cs ih =>
    simp only [buildRecords, List.map_cons, List.pairwise_cons]
    refine ⟨?_, ih (n + 1)⟩
    intro x hx
    simp only [List.mem_map] at hx
    obtain ⟨r, hr, rfl⟩ := hx
    have hge := buildRecords_id_ge (n + 1) cs r hr
    simp only [mkRecord]
    omega

/-- C9: starting from an empty store, a run of N `save_record` calls under a
non-decreasing clock leaves exactly N records; each call appends exactly one
record (never updating or deleting), the auto-increment identities are
strictly increasing and the stored timestamps non-decreasing. -/
theorem claim_c9 (cs : List SaveCall)
    (h : List.Pairwise (fun a b => a.timestamp ≤ b.timestamp) cs) :
    (∀ c s, (save_record c s).records = s.records ++ [mkRecord s.nextId c]) ∧
    (runSaves cs initDb).records.length = cs.length ∧
    List.Pairwise (· < ·) ((runSaves cs initDb).records.map DbRecord.id) ∧
    List.Pairwise (· ≤ ·) ((runSaves cs initDb).records.map DbRecord.timestamp) := by
  refine ⟨fun c s => rfl, ?_, ?_, ?_⟩ <;> rw [runSaves_eq]
  · simp [initDb, buildRecords_length]
  · simpa [initDb] using buildRecords_pairwise_id 1 cs
  · simp only [initDb, List.nil_append, buildRecords_map_ts]
    exact List.pairwise_map.mpr h

/-- C9 witness: two concrete saves with non-decreasing timestamps. -/
theorem claim_c9_witness :
    List.Pairwise (fun a b : SaveCall => a.timestamp ≤ b.timestamp) wCalls ∧
    ((∀ c s, (save_record c s).records = s.records ++ [mkRecord s.nextId c]) ∧
     (runSaves wCalls initDb).records.length = wCalls.length ∧
     List.Pairwise (· < ·) ((runSaves wCalls initDb).records.map DbRecord.id) ∧
     List.Pairwise (· ≤ ·) ((runSaves wCalls initDb).records.map DbRecord.timestamp)) := by
  have hp : List.Pairwise (fun a b : SaveCall => a.timestamp ≤ b.timestamp) wCalls := by
    norm_num [wCalls, List.pairwise_cons]
  exact ⟨hp, claim_c9 wCalls hp⟩

theorem calcFromDisplay_mem (d : String) :
    calcFromDisplay d ∈ (["never", "sometimes", "frequently", "always"] : List String) := by
  simp only [calcFromDisplay, CALC_FORM_MAP, alookup]
  split_ifs <;> simp [Option.getD]

theorem mapVia_freq_form (v : String)
    (h : v ∈ (["never", "sometimes", "frequently", "always"] : List String)) :
    mapVia FREQ_MAP (.str v) = .missing := by
  simp only [List.mem_cons, List.not_mem_nil, or_false] at h
  rcases h with rfl | rfl | rfl | rfl <;> rfl

/-- C10: every submission of the prediction form sends `CALC` as one of the
lowercase strings `never/sometimes/frequently/always`; none of these is a key
of the encoder's case-sensitive frequency map, so the encoded vector's
`cons_alcool_bin` entry is always the missing value (NaN) while the encoder
succeeds, and the wrapper reaches the classifier without raising. -/
theorem claim_c10 (nome fhD favcD caecD smokeD sccD calcD mtransD : String)
    (fcvc ncp ch2o faf tue : ℚ) :
    calcFromDisplay calcD ∈ (["never", "sometimes", "frequently", "always"] : List String) ∧
    alookup "never" FREQ_MAP = none ∧ alookup "sometimes" FREQ_MAP = none ∧
    alookup "frequently" FREQ_MAP = none ∧ alookup "always" FREQ_MAP = none ∧
    (∃ v, preprocess_input (form_inputs nome fhD favcD caecD smokeD sccD calcD
        mtransD fcvc ncp ch2o faf tue) = .ok v ∧
      alookup "cons_alcool_bin" v = some .missing) ∧
    (∀ m : Modelo, ∃ res, predict_from_input m (form_inputs nome fhD favcD
        caecD smokeD sccD calcD mtransD fcvc ncp ch2o faf tue) = .ok res) := by
  have hev := preprocess_eval_form nome fhD favcD caecD smokeD sccD calcD
    mtransD fcvc ncp ch2o faf tue
  have hmem := calcFromDisplay_mem calcD
  have hmiss : mapVia FREQ_MAP (.str (calcFromDisplay calcD)) = .missing :=
    mapVia_freq_form _ hmem
  refine ⟨hmem, rfl, rfl, rfl, rfl, ⟨_, hev, ?_⟩,
    fun m => ⟨_, predict_eval m _ _ hev⟩⟩
  simp only [alookup, String.reduceEq, reduceIte, hmiss]
